import Mathlib

/-!
Shallow embedding of the brick-breaker simulation core
(`src/client/game/types.ts`, `Paddle.ts`, `Ball.ts`, `Brick.ts`, `Game.ts`).

Conventions of the embedding:
* JavaScript `number` values that take part in arithmetic are modelled as `ℚ`
  (all operations used by the core are field operations, `min`, `max`, `abs`,
  `Math.floor` and comparisons, which are exact on rationals); counters that
  are only ever incremented/decremented by 1 (`durability`, `lives`, `score`)
  are modelled as `Int`, and `stage`/`combo` (non-negative counters) as `Nat`.
* `Math.sqrt`, `Math.sin`, `Math.cos` and `Math.random` have no exact rational
  counterpart; every call site receives the corresponding value as an explicit
  oracle parameter (`s` for the square root of the current squared speed,
  `si`/`co` for the sine/cosine of the random launch angle, `bsin`/`bcos` for
  the sine/cosine of the paddle-bounce angle, `mirror` for the random sign).
  Theorems that depend on their meaning carry the defining hypotheses
  (`s ^ 2 = dx ^ 2 + dy ^ 2`, `si ^ 2 + co ^ 2 = 1`, ...) explicitly.
* The comparison `Math.sqrt (dx*dx + dy*dy) < radius` of
  `Ball.checkBrickCollision` is translated to the equivalent
  `dx ^ 2 + dy ^ 2 < radius ^ 2` (equivalent since the configured radius is
  non-negative and `Real.sqrt` is monotone on non-negatives).
* Mutation of `this` becomes explicit state passing; the TS string-enum
  `'playing' | 'lost'` returned by `Ball.update` becomes a `Bool` (`true` =
  lost); DOM key codes become the inductive `KeyCode` (the `keys` map is
  tracked over `KeyCode`, with all codes never read by the game collapsed
  into `KeyCode.other`).
-/

namespace BrickBreaker

/-- `GameState` from `types.ts`. -/
inductive GameState
  | idle | playing | paused | gameover | clear | scores
deriving DecidableEq

/-- `BrickType` from `types.ts`. -/
inductive BrickType
  | normal | hard | special
deriving DecidableEq

/-- `BrickConfig` from `types.ts` (the `color` string is rendering-only and
dropped). -/
structure BrickConfig where
  btype : BrickType
  durability : Int
  score : Int
deriving DecidableEq

/-- `BRICK_CONFIGS` from `types.ts`. -/
def BRICK_CONFIGS : BrickType → BrickConfig
  | BrickType.normal => ⟨BrickType.normal, 1, 10⟩
  | BrickType.hard => ⟨BrickType.hard, 2, 25⟩
  | BrickType.special => ⟨BrickType.special, 1, 50⟩

/-- `GameConfig` from `types.ts`, flattened (color strings dropped;
`maxLives` is never read by the core). -/
structure GameConfig where
  canvasWidth : ℚ
  canvasHeight : ℚ
  paddleWidth : ℚ
  paddleHeight : ℚ
  paddleSpeed : ℚ
  ballRadius : ℚ
  ballInitialSpeed : ℚ
  ballMaxSpeed : ℚ
  brickWidth : ℚ
  brickHeight : ℚ
  brickRows : Nat
  brickCols : Nat
  brickGap : ℚ
  brickTopOffset : ℚ
  lives : Int

/-- `DEFAULT_CONFIG` from `types.ts`. -/
def DEFAULT_CONFIG : GameConfig :=
  { canvasWidth := 800, canvasHeight := 600
    paddleWidth := 100, paddleHeight := 15, paddleSpeed := 8
    ballRadius := 8, ballInitialSpeed := 5, ballMaxSpeed := 10
    brickWidth := 75, brickHeight := 20, brickRows := 5, brickCols := 10
    brickGap := 2, brickTopOffset := 50
    lives := 3 }

/-- Mutable state of the `Paddle` class (`Paddle.ts`): `position` and
`direction`; the `readonly` fields live in `GameConfig`. -/
structure Paddle where
  x : ℚ
  y : ℚ
  direction : ℚ
deriving DecidableEq

/-- The `Paddle` constructor: bottom centre, no movement intent. -/
def Paddle.init (cfg : GameConfig) : Paddle :=
  { x := (cfg.canvasWidth - cfg.paddleWidth) / 2
    y := cfg.canvasHeight - 50
    direction := 0 }

/-- `Paddle.reset()`. -/
def Paddle.reset (cfg : GameConfig) (_p : Paddle) : Paddle :=
  { x := (cfg.canvasWidth - cfg.paddleWidth) / 2
    y := cfg.canvasHeight - 50
    direction := 0 }

/-- `Paddle.setDirection(dir)`. -/
def Paddle.setDirection (p : Paddle) (dir : ℚ) : Paddle :=
  { p with direction := dir }

/-- `Paddle.setPositionX(mouseX)`: recenter under the pointer, then clamp
(`newX = Math.max(0, Math.min(newX, canvasWidth - width))`). -/
def Paddle.setPositionX (cfg : GameConfig) (p : Paddle) (mouseX : ℚ) : Paddle :=
  { p with x := max 0 (min (mouseX - cfg.paddleWidth / 2) (cfg.canvasWidth - cfg.paddleWidth)) }

/-- `Paddle.update()`: apply directional intent, then clamp; early return when
`direction === 0`. -/
def Paddle.update (cfg : GameConfig) (p : Paddle) : Paddle :=
  if p.direction = 0 then p
  else { p with x := max 0 (min (p.x + p.direction * cfg.paddleSpeed) (cfg.canvasWidth - cfg.paddleWidth)) }

/-- `Paddle.getCenterX()`. -/
def Paddle.getCenterX (cfg : GameConfig) (p : Paddle) : ℚ :=
  p.x + cfg.paddleWidth / 2

/-- Mutable state of the `Ball` class (`Ball.ts`): centre position, velocity
vector, launch flag. -/
structure Ball where
  x : ℚ
  y : ℚ
  dx : ℚ
  dy : ℚ
  launched : Bool
deriving DecidableEq

/-- The `Ball` constructor: position `{0, 0}`, velocity `{0, 0}`, not
launched. -/
def Ball.init : Ball :=
  { x := 0, y := 0, dx := 0, dy := 0, launched := false }

/-- `Ball.reset(paddle)`: sit on top of the paddle centre with zero velocity. -/
def Ball.reset (cfg : GameConfig) (paddle : Paddle) : Ball :=
  { x := Paddle.getCenterX cfg paddle
    y := paddle.y - cfg.ballRadius - 1
    dx := 0, dy := 0, launched := false }

/-- `Ball.launch()`: no-op when already launched; otherwise set velocity from
the random angle (60°–120°) and random left/right mirror. `si`/`co` are the
oracle values of `Math.sin(angle)`/`Math.cos(angle)`, `mirror` the oracle of
`Math.random() > 0.5`. -/
def Ball.launch (cfg : GameConfig) (si co : ℚ) (mirror : Bool) (b : Ball) : Ball :=
  if b.launched = true then b
  else
    { b with
      dx := cfg.ballInitialSpeed * co * (if mirror then 1 else -1)
      dy := -(cfg.ballInitialSpeed * si)
      launched := true }

/-- `Ball.checkPaddleCollision(paddle)`: only while moving downward with the
leading edge inside the paddle band and `x` within the paddle span. `s` is the
oracle for `Math.sqrt(dx*dx + dy*dy)`, and `bsin`/`bcos` the oracles for
`Math.sin(angle)`/`Math.cos(angle)` of the bounce angle
`angle = (hitPosition - 0.5) * π * 0.7`. -/
def Ball.checkPaddleCollision (cfg : GameConfig) (s bsin bcos : ℚ)
    (paddle : Paddle) (b : Ball) : Ball :=
  if b.dy > 0 ∧ b.y + cfg.ballRadius ≥ paddle.y ∧
      b.y + cfg.ballRadius ≤ paddle.y + cfg.paddleHeight ∧
      b.x ≥ paddle.x ∧ b.x ≤ paddle.x + cfg.paddleWidth then
    let newSpeed := min (s * 1.02) cfg.ballMaxSpeed
    { b with
      dx := newSpeed * bsin
      dy := -(newSpeed * bcos)
      y := paddle.y - cfg.ballRadius }
  else b

/-- The position-integration and wall-reflection prefix of `Ball.update`:
`position += velocity`, reflect off the left/right walls (clamping `x`
in-bounds), then off the top wall (clamping `y`). -/
def Ball.integrateWalls (cfg : GameConfig) (b : Ball) : Ball :=
  let b1 := { b with x := b.x + b.dx, y := b.y + b.dy }
  let b2 :=
    if b1.x - cfg.ballRadius ≤ 0 then
      { b1 with x := cfg.ballRadius, dx := |b1.dx| }
    else if b1.x + cfg.ballRadius ≥ cfg.canvasWidth then
      { b1 with x := cfg.canvasWidth - cfg.ballRadius, dx := -|b1.dx| }
    else b1
  if b2.y - cfg.ballRadius ≤ 0 then
    { b2 with y := cfg.ballRadius, dy := |b2.dy| }
  else b2

/-- `Ball.update(paddle)`, written statement-by-statement after the source.
The second component is `true` exactly when the source returns `'lost'`. -/
def Ball.update (cfg : GameConfig) (s bsin bcos : ℚ) (paddle : Paddle)
    (b : Ball) : Ball × Bool :=
  if b.launched = false then
    ({ b with x := Paddle.getCenterX cfg paddle, y := paddle.y - cfg.ballRadius - 1 }, false)
  else
    let b1 := { b with x := b.x + b.dx, y := b.y + b.dy }
    let b2 :=
      if b1.x - cfg.ballRadius ≤ 0 then
        { b1 with x := cfg.ballRadius, dx := |b1.dx| }
      else if b1.x + cfg.ballRadius ≥ cfg.canvasWidth then
        { b1 with x := cfg.canvasWidth - cfg.ballRadius, dx := -|b1.dx| }
      else b1
    let b3 :=
      if b2.y - cfg.ballRadius ≤ 0 then
        { b2 with y := cfg.ballRadius, dy := |b2.dy| }
      else b2
    if b3.y - cfg.ballRadius > cfg.canvasHeight then (b3, true)
    else (Ball.checkPaddleCollision cfg s bsin bcos paddle b3, false)

/-- `Ball.checkBrickCollision(brickX, brickY, brickWidth, brickHeight)`:
closest-point circle/AABB test, then reflect the axis of smaller penetration
and push the ball out along it. The source compares
`Math.sqrt(distanceX² + distanceY²) < radius`; over non-negative radius this
is `distanceX² + distanceY² < radius²`. -/
def Ball.checkBrickCollision (cfg : GameConfig) (brickX brickY brickWidth brickHeight : ℚ)
    (b : Ball) : Ball × Bool :=
  let closestX := max brickX (min b.x (brickX + brickWidth))
  let closestY := max brickY (min b.y (brickY + brickHeight))
  let distanceX := b.x - closestX
  let distanceY := b.y - closestY
  if distanceX ^ 2 + distanceY ^ 2 < cfg.ballRadius ^ 2 then
    let overlapX := cfg.ballRadius - |distanceX|
    let overlapY := cfg.ballRadius - |distanceY|
    if overlapX < overlapY then
      ({ b with dx := -b.dx, x := b.x + (if distanceX > 0 then overlapX else -overlapX) }, true)
    else
      ({ b with dy := -b.dy, y := b.y + (if distanceY > 0 then overlapY else -overlapY) }, true)
  else (b, false)

/-- Mutable state of the `Brick` class (`Brick.ts`): fixed geometry and
`config`, mutable `durability` and `destroyed` flag. -/
structure Brick where
  x : ℚ
  y : ℚ
  width : ℚ
  height : ℚ
  config : BrickConfig
  durability : Int
  destroyed : Bool
deriving DecidableEq

/-- The `Brick` constructor: durability starts at the type's configured
durability, not destroyed. -/
def Brick.init (x y width height : ℚ) (t : BrickType) : Brick :=
  { x := x, y := y, width := width, height := height
    config := BRICK_CONFIGS t
    durability := (BRICK_CONFIGS t).durability
    destroyed := false }

/-- `Brick.hit()`: decrement durability; when it is `≤ 0` afterwards, mark
destroyed and return `true`. -/
def Brick.hit (b : Brick) : Brick × Bool :=
  let d := b.durability - 1
  if d ≤ 0 then ({ b with durability := d, destroyed := true }, true)
  else ({ b with durability := d }, false)

/-- `BrickManager.getBrickType(stage, row, col)`: brick type as a pure
function of stage and row. -/
def BrickManager.getBrickType (stage row : Nat) : BrickType :=
  if stage = 1 then BrickType.normal
  else if stage = 2 then (if row < 2 then BrickType.hard else BrickType.normal)
  else if row = 0 then BrickType.special
  else if row < 2 then BrickType.hard
  else BrickType.normal

/-- `BrickManager.createBricks(stage)`: regenerate the row-major
`rows × cols` grid, centred horizontally. -/
def BrickManager.createBricks (cfg : GameConfig) (stage : Nat) : List Brick :=
  let totalWidth := (cfg.brickCols : ℚ) * (cfg.brickWidth + cfg.brickGap) - cfg.brickGap
  let startX := (cfg.canvasWidth - totalWidth) / 2
  (List.range cfg.brickRows).flatMap (fun row =>
    (List.range cfg.brickCols).map (fun col =>
      Brick.init (startX + (col : ℚ) * (cfg.brickWidth + cfg.brickGap))
        (cfg.brickTopOffset + (row : ℚ) * (cfg.brickHeight + cfg.brickGap))
        cfg.brickWidth cfg.brickHeight (BrickManager.getBrickType stage row)))

/-- `BrickManager.getActiveBricks()`: the non-destroyed bricks, in order. -/
def BrickManager.getActiveBricks (bricks : List Brick) : List Brick :=
  bricks.filter (fun b => b.destroyed = false)

/-- `BrickManager.getRemainingCount()`. -/
def BrickManager.getRemainingCount (bricks : List Brick) : Nat :=
  (BrickManager.getActiveBricks bricks).length

/-- The combo multiplier computed inline in `Game.checkBrickCollisions`,
from the already-incremented combo:
`combo >= 10 → 2`, `combo >= 5 → 1.5`, else `1`. -/
def comboMultiplier (combo : Nat) : ℚ :=
  if combo ≥ 10 then 2
  else if combo ≥ 5 then 1.5
  else 1

/-- Result of the brick-collision scan: the game fields
`Game.checkBrickCollisions` can mutate. -/
structure ScanResult where
  ball : Ball
  bricks : List Brick
  combo : Nat
  score : Int

/-- The loop of `Game.checkBrickCollisions()`: walk the active bricks in
order; on the first brick whose collision test fires, apply `Brick.hit`, on
destruction increment the combo and add `Math.floor(brickScore * multiplier)`
to the score, and stop (`break`). Destroyed bricks are skipped, which is
exactly iterating over the `getActiveBricks()` snapshot. -/
def scanBricks (cfg : GameConfig) (ball : Ball) :
    List Brick → Nat → Int → ScanResult
  | [], combo, score => ⟨ball, [], combo, score⟩
  | brick :: rest, combo, score =>
    if brick.destroyed = true then
      let r := scanBricks cfg ball rest combo score
      ⟨r.ball, brick :: r.bricks, r.combo, r.score⟩
    else
      let c := Ball.checkBrickCollision cfg brick.x brick.y brick.width brick.height ball
      if c.2 = true then
        let hb := Brick.hit brick
        if hb.2 = true then
          let combo1 := combo + 1
          let points := Int.floor ((brick.config.score : ℚ) * comboMultiplier combo1)
          ⟨c.1, hb.1 :: rest, combo1, score + points⟩
        else ⟨c.1, hb.1 :: rest, combo, score⟩
      else
        let r := scanBricks cfg ball rest combo score
        ⟨r.ball, brick :: r.bricks, r.combo, r.score⟩

/-- DOM `KeyboardEvent.code` values read by `Game.ts`; every other code is
collapsed into `other` (the `keys` map is written for arbitrary codes but only
ever read at the four movement keys). -/
inductive KeyCode
  | keyS | escape | space | keyP | keyQ | keyR
  | arrowLeft | arrowRight | keyA | keyD | other
deriving DecidableEq

/-- Mutable state of the `Game` class (`Game.ts`): the state machine, the
owned game objects and the scalar match data. Rendering-only fields
(`canvas`, `ctx`, `highScores`, callbacks, `animationFrameId`) are outside
the simulation core. -/
structure Game where
  state : GameState
  previousState : GameState
  paddle : Paddle
  ball : Ball
  bricks : List Brick
  score : Int
  lives : Int
  stage : Nat
  combo : Nat
  keys : KeyCode → Bool

/-- The `Game` constructor: `idle`, stage 1, configured lives, empty brick
field, fresh paddle and ball. -/
def Game.init (cfg : GameConfig) : Game :=
  { state := GameState.idle
    previousState := GameState.idle
    paddle := Paddle.init cfg
    ball := Ball.init
    bricks := []
    score := 0
    lives := cfg.lives
    stage := 1
    combo := 0
    keys := fun _ => false }

/-- `Game.initStage(stage)`: set the stage index, regenerate the bricks,
reset paddle then ball (on the reset paddle), reset the combo. -/
def Game.initStage (cfg : GameConfig) (stage : Nat) (g : Game) : Game :=
  let paddle1 := Paddle.reset cfg g.paddle
  { g with
    stage := stage
    bricks := BrickManager.createBricks cfg stage
    paddle := paddle1
    ball := Ball.reset cfg paddle1
    combo := 0 }

/-- `Game.start()`: from `idle` only, move to `playing` and initialise the
current stage. -/
def Game.start (cfg : GameConfig) (g : Game) : Game :=
  if g.state = GameState.idle then
    Game.initStage cfg g.stage { g with state := GameState.playing }
  else g

/-- `Game.pause()`: from `playing` only. -/
def Game.pause (_cfg : GameConfig) (g : Game) : Game :=
  if g.state = GameState.playing then { g with state := GameState.paused } else g

/-- `Game.resume()`: from `paused` only. -/
def Game.resume (_cfg : GameConfig) (g : Game) : Game :=
  if g.state = GameState.paused then { g with state := GameState.playing } else g

/-- `Game.quit()`: from `paused`/`gameover`/`clear` only; full reset back to
`idle` (score, lives, stage, combo, paddle, ball). -/
def Game.quit (cfg : GameConfig) (g : Game) : Game :=
  if g.state = GameState.paused ∨ g.state = GameState.gameover ∨ g.state = GameState.clear then
    { g with
      state := GameState.idle
      score := 0
      lives := cfg.lives
      stage := 1
      combo := 0
      paddle := Paddle.reset cfg g.paddle
      ball := Ball.reset cfg (Paddle.reset cfg g.paddle) }
  else g

/-- `Game.restart()`: unguarded full reset back to `idle` (score, lives,
stage, combo, paddle, ball). -/
def Game.restart (cfg : GameConfig) (g : Game) : Game :=
  { g with
    state := GameState.idle
    score := 0
    lives := cfg.lives
    stage := 1
    combo := 0
    paddle := Paddle.reset cfg g.paddle
    ball := Ball.reset cfg (Paddle.reset cfg g.paddle) }

/-- `Game.handleBallLost()`: decrement lives, zero the combo; at `lives ≤ 0`
transition to `gameover`, otherwise reset the ball onto the paddle. -/
def Game.handleBallLost (cfg : GameConfig) (g : Game) : Game :=
  let lives1 := g.lives - 1
  if lives1 ≤ 0 then
    { g with lives := lives1, combo := 0, state := GameState.gameover }
  else
    { g with lives := lives1, combo := 0, ball := Ball.reset cfg g.paddle }

/-- `Game.handleStageClear()`: at `stage >= 3` transition to `clear`,
otherwise initialise the next stage. -/
def Game.handleStageClear (cfg : GameConfig) (g : Game) : Game :=
  if g.stage ≥ 3 then { g with state := GameState.clear }
  else Game.initStage cfg (g.stage + 1) g

/-- `Game.update()` (one tick of the `playing` loop): update the paddle,
update the ball; on `'lost'` handle the lost ball and return; otherwise run
the brick-collision scan and, when no active brick remains, handle the stage
clear. -/
def Game.update (cfg : GameConfig) (s bsin bcos : ℚ) (g : Game) : Game :=
  let paddle1 := Paddle.update cfg g.paddle
  let br := Ball.update cfg s bsin bcos paddle1 g.ball
  if br.2 = true then
    Game.handleBallLost cfg { g with paddle := paddle1, ball := br.1 }
  else
    let r := scanBricks cfg br.1 g.bricks g.combo g.score
    let g2 := { g with paddle := paddle1, ball := r.ball, bricks := r.bricks,
                       combo := r.combo, score := r.score }
    if BrickManager.getRemainingCount g2.bricks = 0 then
      Game.handleStageClear cfg g2
    else g2

/-- The movement-intent block of `handleKeyDown` (arrow keys / a / d). -/
def Game.keyDownArrows (code : KeyCode) (g : Game) : Game :=
  if code = KeyCode.arrowLeft ∨ code = KeyCode.keyA then
    { g with paddle := Paddle.setDirection g.paddle (-1) }
  else if code = KeyCode.arrowRight ∨ code = KeyCode.keyD then
    { g with paddle := Paddle.setDirection g.paddle 1 }
  else g

/-- The space block of `handleKeyDown`: start from `idle`, launch while
`playing` and unlaunched. -/
def Game.keyDownSpace (cfg : GameConfig) (code : KeyCode) (si co : ℚ)
    (mirror : Bool) (g : Game) : Game :=
  if code = KeyCode.space then
    if g.state = GameState.idle then Game.start cfg g
    else if g.state = GameState.playing ∧ g.ball.launched = false then
      { g with ball := Ball.launch cfg si co mirror g.ball }
    else g
  else g

/-- The escape/p block of `handleKeyDown`: pause/resume toggle. -/
def Game.keyDownPauseToggle (cfg : GameConfig) (code : KeyCode) (g : Game) : Game :=
  if code = KeyCode.escape ∨ code = KeyCode.keyP then
    if g.state = GameState.playing then Game.pause cfg g
    else if g.state = GameState.paused then Game.resume cfg g
    else g
  else g

/-- The q block of `handleKeyDown`: quit from paused/gameover/clear. -/
def Game.keyDownQuitQ (cfg : GameConfig) (code : KeyCode) (g : Game) : Game :=
  if code = KeyCode.keyQ ∧ (g.state = GameState.paused ∨
      g.state = GameState.gameover ∨ g.state = GameState.clear) then
    Game.quit cfg g
  else g

/-- The second escape block of `handleKeyDown`: quit from gameover/clear. -/
def Game.keyDownQuitEscape (cfg : GameConfig) (code : KeyCode) (g : Game) : Game :=
  if code = KeyCode.escape ∧ (g.state = GameState.gameover ∨
      g.state = GameState.clear) then
    Game.quit cfg g
  else g

/-- The r block of `handleKeyDown`: restart from gameover/clear. -/
def Game.keyDownRestart (cfg : GameConfig) (code : KeyCode) (g : Game) : Game :=
  if code = KeyCode.keyR ∧ (g.state = GameState.gameover ∨
      g.state = GameState.clear) then
    Game.restart cfg g
  else g

/-- `Game.handleKeyDown(e)`: record the key as down, then the source's
sequence of `if` blocks — the scoreboard toggle with its early returns,
then (in order, on the successively updated state, exactly as the source's
sequential statements) movement intent, space = start/launch, escape/p =
pause toggle, q = quit, escape = quit from gameover/clear, r = restart.
`si`/`co`/`mirror` are the oracles for a potential `Ball.launch`. -/
def Game.handleKeyDown (cfg : GameConfig) (code : KeyCode) (si co : ℚ)
    (mirror : Bool) (g : Game) : Game :=
  let g := { g with keys := fun k => if k = code then true else g.keys k }
  if code = KeyCode.keyS ∧ g.state = GameState.scores then
    { g with state := g.previousState }
  else if code = KeyCode.keyS ∧ (g.state = GameState.idle ∨
      g.state = GameState.gameover ∨ g.state = GameState.clear) then
    { g with previousState := g.state, state := GameState.scores }
  else if g.state = GameState.scores then
    if code = KeyCode.escape then { g with state := g.previousState } else g
  else
    Game.keyDownRestart cfg code (Game.keyDownQuitEscape cfg code
      (Game.keyDownQuitQ cfg code (Game.keyDownPauseToggle cfg code
        (Game.keyDownSpace cfg code si co mirror (Game.keyDownArrows code g)))))

/-- `Game.handleKeyUp(e)`: record the key as up, then recompute the movement
intent from the still-held movement keys. -/
def Game.handleKeyUp (code : KeyCode) (g : Game) : Game :=
  let g := { g with keys := fun k => if k = code then false else g.keys k }
  if code = KeyCode.arrowLeft ∨ code = KeyCode.keyA then
    if g.keys KeyCode.arrowRight = false ∧ g.keys KeyCode.keyD = false then
      { g with paddle := Paddle.setDirection g.paddle 0 }
    else { g with paddle := Paddle.setDirection g.paddle 1 }
  else if code = KeyCode.arrowRight ∨ code = KeyCode.keyD then
    if g.keys KeyCode.arrowLeft = false ∧ g.keys KeyCode.keyA = false then
      { g with paddle := Paddle.setDirection g.paddle 0 }
    else { g with paddle := Paddle.setDirection g.paddle (-1) }
  else g

/-- `Game.handleMouseMove(e)`: pointer mode, only while `playing`;
`mouseX` is the already canvas-relative x. -/
def Game.handleMouseMove (cfg : GameConfig) (mouseX : ℚ) (g : Game) : Game :=
  if g.state = GameState.playing then
    { g with paddle := Paddle.setPositionX cfg g.paddle mouseX }
  else g

/-- `Game.handleClick()`: start from `idle`, launch while `playing` and not
yet launched. -/
def Game.handleClick (cfg : GameConfig) (si co : ℚ) (mirror : Bool) (g : Game) : Game :=
  if g.state = GameState.idle then Game.start cfg g
  else if g.state = GameState.playing ∧ g.ball.launched = false then
    { g with ball := Ball.launch cfg si co mirror g.ball }
  else g

/-- States of the match controller reachable through its public entry points
(constructor, public methods, event handlers, and the `gameLoop` tick, which
only runs while `playing`). Oracle parameters carry their defining
constraints: launch sine/cosine come from a real angle, the tick's `s` is
the square root of the current squared ball speed, and the bounce
sine/cosine come from a real angle. -/
inductive Reachable (cfg : GameConfig) : Game → Prop
  | init : Reachable cfg (Game.init cfg)
  | start {g} : Reachable cfg g → Reachable cfg (Game.start cfg g)
  | pause {g} : Reachable cfg g → Reachable cfg (Game.pause cfg g)
  | resume {g} : Reachable cfg g → Reachable cfg (Game.resume cfg g)
  | quit {g} : Reachable cfg g → Reachable cfg (Game.quit cfg g)
  | restart {g} : Reachable cfg g → Reachable cfg (Game.restart cfg g)
  | keyDown {g} (code : KeyCode) (si co : ℚ) (mirror : Bool) :
      Reachable cfg g → si ^ 2 + co ^ 2 = 1 →
      Reachable cfg (Game.handleKeyDown cfg code si co mirror g)
  | keyUp {g} (code : KeyCode) :
      Reachable cfg g → Reachable cfg (Game.handleKeyUp code g)
  | mouseMove {g} (mouseX : ℚ) :
      Reachable cfg g → Reachable cfg (Game.handleMouseMove cfg mouseX g)
  | click {g} (si co : ℚ) (mirror : Bool) :
      Reachable cfg g → si ^ 2 + co ^ 2 = 1 →
      Reachable cfg (Game.handleClick cfg si co mirror g)
  | tick {g} (s bsin bcos : ℚ) :
      Reachable cfg g → g.state = GameState.playing →
      0 ≤ s → s ^ 2 = g.ball.dx ^ 2 + g.ball.dy ^ 2 →
      bsin ^ 2 + bcos ^ 2 = 1 →
      Reachable cfg (Game.update cfg s bsin bcos g)

/-! Derived definitions used to state the verified properties. -/

/-- The paddle-position bound of the spec:
`0 ≤ x ≤ canvasWidth − paddleWidth`. -/
def PaddleInBounds (cfg : GameConfig) (p : Paddle) : Prop :=
  0 ≤ p.x ∧ p.x ≤ cfg.canvasWidth - cfg.paddleWidth

instance (cfg : GameConfig) (p : Paddle) : Decidable (PaddleInBounds cfg p) :=
  inferInstanceAs (Decidable (_ ∧ _))

/-- Squared speed magnitude of the ball, `dx² + dy²`. -/
def speedSq (b : Ball) : ℚ :=
  b.dx ^ 2 + b.dy ^ 2

/-- The speed-magnitude invariant of the spec, stated on squares:
`initialSpeed ≤ √(dx²+dy²) ≤ maxSpeed` and the speed is not zero. -/
def SpeedInRange (cfg : GameConfig) (b : Ball) : Prop :=
  cfg.ballInitialSpeed ^ 2 ≤ speedSq b ∧ speedSq b ≤ cfg.ballMaxSpeed ^ 2 ∧ speedSq b ≠ 0

instance (cfg : GameConfig) (b : Ball) : Decidable (SpeedInRange cfg b) :=
  inferInstanceAs (Decidable (_ ∧ _ ∧ _))

/-- The brick-collision scan a tick performs when the ball is not lost:
`Game.checkBrickCollisions` run on the post-ball-update state. -/
def Game.tickScan (cfg : GameConfig) (s bsin bcos : ℚ) (g : Game) : ScanResult :=
  scanBricks cfg (Ball.update cfg s bsin bcos (Paddle.update cfg g.paddle) g.ball).1
    g.bricks g.combo g.score

/-! Concrete states used by witnesses and counterexamples. -/

/-- A small but fully concrete configuration: one row of two 40×10 normal
bricks directly above the paddle, a fast radius-3 ball on a 100×100 canvas. -/
def smallCfg : GameConfig :=
  { canvasWidth := 100, canvasHeight := 100
    paddleWidth := 20, paddleHeight := 5, paddleSpeed := 8
    ballRadius := 3, ballInitialSpeed := 30, ballMaxSpeed := 40
    brickWidth := 40, brickHeight := 10, brickRows := 1, brickCols := 2
    brickGap := 0, brickTopOffset := 5
    lives := 3 }

/-- A launched ball one step above the default canvas bottom: after
integration its bottom edge (`y + radius = 611`) is past `canvasHeight =
600` while its top edge (`y − radius = 595`) is not. -/
def c1ball : Ball :=
  { x := 400, y := 598, dx := 0, dy := 5, launched := true }

/-- A launched ball far below the default canvas: after integration even its
top edge (`y − radius = 697`) is past `canvasHeight = 600`. -/
def c1lostBall : Ball :=
  { x := 400, y := 700, dx := 0, dy := 5, launched := true }

/-- Start the small game: `idle → playing`, stage 1 (two normal bricks). -/
def c5g1 : Game := Game.start smallCfg (Game.init smallCfg)

/-- Launch the ball straight up (angle 90°: `sin = 1`, `cos = 0`). -/
def c5g2 : Game := Game.handleKeyDown smallCfg KeyCode.space 1 0 true c5g1

/-- One tick: the ball flies from `y = 46` to `y = 16` and destroys the
left brick (combo becomes 1; one brick remains). -/
def c5g3 : Game := Game.update smallCfg 30 0 1 c5g2

/-- Pause mid-stage with combo 1. -/
def c5g4 : Game := Game.pause smallCfg c5g3

/-- A playing state whose single brick is far from the ball: the tick's scan
hits nothing. -/
def c3game : Game :=
  { Game.init smallCfg with
    state := GameState.playing
    bricks := [Brick.init 10 5 40 10 BrickType.normal]
    ball := { x := 50, y := 80, dx := 0, dy := -5, launched := true } }

/-- A ball sitting inside the brick used by the scoring witness. -/
def c4ball : Ball :=
  { x := 10, y := 10, dx := 0, dy := 3, launched := true }

/-- A normal brick at the origin (durability 1, score 10). -/
def c4brick : Brick := Brick.init 0 0 75 20 BrickType.normal

/-- A playing state on the final stage whose brick field is already empty:
the next tick triggers the stage-clear handling. -/
def c6game : Game :=
  { Game.init smallCfg with
    state := GameState.playing
    stage := 3
    bricks := []
    ball := { x := 50, y := 80, dx := 0, dy := -5, launched := true } }

/-- A launched ball at the default initial speed. -/
def c7ball : Ball :=
  { x := 50, y := 50, dx := 0, dy := -5, launched := true }

/-- A paused default game. -/
def c8game : Game :=
  { Game.init DEFAULT_CONFIG with state := GameState.paused }

/-- A game-over default game. -/
def c9game : Game :=
  { Game.init DEFAULT_CONFIG with state := GameState.gameover }

/-- A brick that is already destroyed with durability 0. -/
def c10brick : Brick :=
  { x := 0, y := 0, width := 75, height := 20
    config := BRICK_CONFIGS BrickType.normal
    durability := 0, destroyed := true }

/-! Helper lemmas shared by several verified properties. -/

/-- `Brick.hit` always decrements the durability by exactly 1. -/
theorem Brick.hit_durability (b : Brick) : (Brick.hit b).1.durability = b.durability - 1 := by
  simp only [Brick.hit]
  split <;> rfl

/-- `Brick.hit` reports destruction exactly when the decremented durability
is at most 0. -/
theorem Brick.hit_destroys_iff (b : Brick) : (Brick.hit b).2 = true ↔ b.durability - 1 ≤ 0 := by
  simp only [Brick.hit]
  split <;> simp_all

/-- Clamping `Math.max(0, Math.min(v, m))` lands in `[0, m]` whenever
`0 ≤ m`. -/
theorem clamp_mem (v m : ℚ) (hm : 0 ≤ m) :
    0 ≤ max 0 (min v m) ∧ max 0 (min v m) ≤ m :=
  ⟨le_max_left 0 _, max_le hm (min_le_right v m)⟩

/-- On a launched ball, `Ball.update` is the integrate-and-walls prefix
followed by either the loss test or the paddle-collision check. -/
theorem Ball.update_launched (cfg : GameConfig) (s bsin bcos : ℚ) (p : Paddle) (b : Ball)
    (h : b.launched = true) :
    Ball.update cfg s bsin bcos p b =
      if (Ball.integrateWalls cfg b).y - cfg.ballRadius > cfg.canvasHeight then
        (Ball.integrateWalls cfg b, true)
      else
        (Ball.checkPaddleCollision cfg s bsin bcos p (Ball.integrateWalls cfg b), false) := by
  rw [Ball.update, Ball.integrateWalls, h]
  simp only [Bool.true_eq_false, if_false]

/-! C10 — `Brick.hit` semantics, including on an already-destroyed brick. -/

/-- C10: `hit()` returns `true` exactly when the durability after the
decrement is at most 0; it always decrements by 1 (so a further hit on a
destroyed brick goes negative and returns `true` again), and the destroyed
flag never reverts to `false`. -/
theorem c10_brick_hit_semantics (b : Brick) :
    ((Brick.hit b).2 = true ↔ b.durability - 1 ≤ 0) ∧
    (Brick.hit b).1.durability = b.durability - 1 ∧
    (b.destroyed = true → (Brick.hit b).1.destroyed = true) ∧
    (b.destroyed = true → b.durability ≤ 0 →
      (Brick.hit b).1.durability < 0 ∧ (Brick.hit b).2 = true) := by
  refine ⟨Brick.hit_destroys_iff b, Brick.hit_durability b, ?_, ?_⟩
  · intro hdes
    simp only [Brick.hit]
    split <;> simp [hdes]
  · intro hdes hdur
    refine ⟨by rw [Brick.hit_durability]; omega, ?_⟩
    rw [Brick.hit_destroys_iff]
    omega

/-- C10 witness: a destroyed brick with durability 0 is hit again; the
durability goes negative and the destroyed signal fires again. -/
theorem c10_witness :
    c10brick.destroyed = true ∧ c10brick.durability ≤ 0 ∧
    (Brick.hit c10brick).1.durability < 0 ∧ (Brick.hit c10brick).2 = true := by
  refine ⟨rfl, by decide, ?_, ?_⟩
  · exact ((c10_brick_hit_semantics c10brick).2.2.2 rfl (by decide)).1
  · exact ((c10_brick_hit_semantics c10brick).2.2.2 rfl (by decide)).2

/-! C2 — the paddle position bound is established by construction and by
`setPositionX`, and preserved by every paddle operation. -/

/-- C2: with a paddle no wider than the canvas, the initial and reset
positions are in bounds, `setPositionX` lands in bounds for every input,
and `update` and `setDirection` preserve the bound. -/
theorem c2_paddle_position_invariant (cfg : GameConfig)
    (hw : 0 ≤ cfg.canvasWidth - cfg.paddleWidth) :
    PaddleInBounds cfg (Paddle.init cfg) ∧
    (∀ p, PaddleInBounds cfg (Paddle.reset cfg p)) ∧
    (∀ p mouseX, PaddleInBounds cfg (Paddle.setPositionX cfg p mouseX)) ∧
    (∀ p, PaddleInBounds cfg p → PaddleInBounds cfg (Paddle.update cfg p)) ∧
    (∀ p d, PaddleInBounds cfg p → PaddleInBounds cfg (Paddle.setDirection p d)) := by
  have hhalf : PaddleInBounds cfg (Paddle.init cfg) := by
    constructor
    · exact div_nonneg hw (by norm_num)
    · exact half_le_self hw
  refine ⟨hhalf, fun p => hhalf, ?_, ?_, ?_⟩
  · intro p mouseX
    exact clamp_mem _ _ hw
  · intro p hp
    unfold Paddle.update
    split
    · exact hp
    · exact clamp_mem _ _ hw
  · intro p d hp
    exact hp

/-- C2 witness: the bound holds concretely for the default configuration's
initial paddle. -/
theorem c2_witness :
    0 ≤ DEFAULT_CONFIG.canvasWidth - DEFAULT_CONFIG.paddleWidth ∧
    PaddleInBounds DEFAULT_CONFIG (Paddle.init DEFAULT_CONFIG) ∧
    PaddleInBounds DEFAULT_CONFIG
      (Paddle.setPositionX DEFAULT_CONFIG (Paddle.init DEFAULT_CONFIG) 9999) := by
  have h : (0:ℚ) ≤ DEFAULT_CONFIG.canvasWidth - DEFAULT_CONFIG.paddleWidth := by
    norm_num [DEFAULT_CONFIG]
  exact ⟨h, (c2_paddle_position_invariant DEFAULT_CONFIG h).1,
    (c2_paddle_position_invariant DEFAULT_CONFIG h).2.2.1 (Paddle.init DEFAULT_CONFIG) 9999⟩

/-! C1 — the per-tick loss signal of `Ball.update`. -/

/-- C1 counterexample: a launched ball whose bottom edge (`y + radius`) is
past the canvas height after integration and wall reflection, yet
`Ball.update` does not return the lost signal (the source compares the top
edge `y − radius` against the canvas height). -/
theorem c1_counterexample :
    c1ball.launched = true ∧
    (Ball.integrateWalls DEFAULT_CONFIG c1ball).y + DEFAULT_CONFIG.ballRadius >
      DEFAULT_CONFIG.canvasHeight ∧
    (Ball.update DEFAULT_CONFIG 5 0 1 (Paddle.init DEFAULT_CONFIG) c1ball).2 = false := by
  refine ⟨rfl, ?_, ?_⟩
  · norm_num +decide [Ball.integrateWalls, c1ball, DEFAULT_CONFIG]
  · norm_num +decide [Ball.update, Ball.checkPaddleCollision, Paddle.init, c1ball,
      DEFAULT_CONFIG]

/-- C1 (amended): for every launched ball, `Ball.update` returns the lost
signal exactly when the ball's top edge (`y − radius`) has passed the canvas
height after position integration and wall reflection, and when it does the
returned state is exactly the integrated-and-wall-reflected one (no paddle
check, no further position or velocity change that tick). -/
theorem c1_lost_signal (cfg : GameConfig) (s bsin bcos : ℚ) (p : Paddle) (b : Ball)
    (h : b.launched = true) :
    ((Ball.update cfg s bsin bcos p b).2 = true ↔
      (Ball.integrateWalls cfg b).y - cfg.ballRadius > cfg.canvasHeight) ∧
    ((Ball.update cfg s bsin bcos p b).2 = true →
      (Ball.update cfg s bsin bcos p b).1 = Ball.integrateWalls cfg b) := by
  rw [Ball.update_launched cfg s bsin bcos p b h]
  by_cases hc : (Ball.integrateWalls cfg b).y - cfg.ballRadius > cfg.canvasHeight
  · rw [if_pos hc]
    exact ⟨by simp [hc], fun _ => rfl⟩
  · rw [if_neg hc]
    exact ⟨by simp [hc], by intro hfalse; simp at hfalse⟩

/-- C1 witness: a ball fully below the canvas is reported lost, and the
returned state is the bare integrated one. -/
theorem c1_witness :
    (Ball.update DEFAULT_CONFIG 5 0 1 (Paddle.init DEFAULT_CONFIG) c1lostBall).2 = true ∧
    (Ball.update DEFAULT_CONFIG 5 0 1 (Paddle.init DEFAULT_CONFIG) c1lostBall).1 =
      Ball.integrateWalls DEFAULT_CONFIG c1lostBall := by
  have h := c1_lost_signal DEFAULT_CONFIG 5 0 1 (Paddle.init DEFAULT_CONFIG) c1lostBall rfl
  have hy : (Ball.integrateWalls DEFAULT_CONFIG c1lostBall).y - DEFAULT_CONFIG.ballRadius >
      DEFAULT_CONFIG.canvasHeight := by
    norm_num +decide [Ball.integrateWalls, c1lostBall, DEFAULT_CONFIG]
  exact ⟨h.1.mpr hy, h.2 (h.1.mpr hy)⟩

/-! C8 — `quit` and `restart` agree on `{paused, gameover, clear}`. -/

/-- C8: from any state in `{paused, gameover, clear}`, `quit` and `restart`
produce the identical game: `idle`, score 0, configured lives, stage 1,
combo 0, paddle and ball reset. -/
theorem c8_quit_restart_equivalent (cfg : GameConfig) (g : Game)
    (h : g.state = GameState.paused ∨ g.state = GameState.gameover ∨
      g.state = GameState.clear) :
    Game.quit cfg g = Game.restart cfg g ∧
    (Game.quit cfg g).state = GameState.idle ∧
    (Game.quit cfg g).score = 0 ∧
    (Game.quit cfg g).lives = cfg.lives ∧
    (Game.quit cfg g).stage = 1 ∧
    (Game.quit cfg g).combo = 0 ∧
    (Game.quit cfg g).paddle = Paddle.reset cfg g.paddle ∧
    (Game.quit cfg g).ball = Ball.reset cfg (Paddle.reset cfg g.paddle) := by
  unfold Game.quit Game.restart
  rw [if_pos h]
  exact ⟨rfl, rfl, rfl, rfl, rfl, rfl, rfl, rfl⟩

/-- C8 witness: on a concrete paused game the two operations coincide and
reset every scalar. -/
theorem c8_witness :
    c8game.state = GameState.paused ∧
    Game.quit DEFAULT_CONFIG c8game = Game.restart DEFAULT_CONFIG c8game ∧
    (Game.quit DEFAULT_CONFIG c8game).score = 0 ∧
    (Game.quit DEFAULT_CONFIG c8game).combo = 0 := by
  have h := c8_quit_restart_equivalent DEFAULT_CONFIG c8game (Or.inl rfl)
  exact ⟨rfl, h.1, h.2.2.1, h.2.2.2.2.2.1⟩

/-! C9 — the scoreboard overlay round-trips through the single-slot
previous-state stack. -/

/-- C9: from any prior state in `{idle, gameover, clear}`, pressing the
scoreboard key enters `scores`, and pressing it again — or pressing escape —
returns exactly to the prior state. -/
theorem c9_scores_roundtrip (cfg : GameConfig) (g : Game) (si co si2 co2 : ℚ)
    (m m2 : Bool)
    (h : g.state = GameState.idle ∨ g.state = GameState.gameover ∨
      g.state = GameState.clear) :
    (Game.handleKeyDown cfg KeyCode.keyS si co m g).state = GameState.scores ∧
    (Game.handleKeyDown cfg KeyCode.keyS si2 co2 m2
      (Game.handleKeyDown cfg KeyCode.keyS si co m g)).state = g.state ∧
    (Game.handleKeyDown cfg KeyCode.escape si2 co2 m2
      (Game.handleKeyDown cfg KeyCode.keyS si co m g)).state = g.state := by
  rcases h with h | h | h <;>
    simp [Game.handleKeyDown, h]

/-- C9 witness: entering the scoreboard from `gameover` and leaving it (by
either key) lands back in `gameover`, not `idle`. -/
theorem c9_witness :
    (Game.handleKeyDown DEFAULT_CONFIG KeyCode.keyS 1 0 true c9game).state =
      GameState.scores ∧
    (Game.handleKeyDown DEFAULT_CONFIG KeyCode.keyS 1 0 true
      (Game.handleKeyDown DEFAULT_CONFIG KeyCode.keyS 1 0 true c9game)).state =
      GameState.gameover ∧
    (Game.handleKeyDown DEFAULT_CONFIG KeyCode.escape 1 0 true
      (Game.handleKeyDown DEFAULT_CONFIG KeyCode.keyS 1 0 true c9game)).state =
      GameState.gameover := by
  have h := c9_scores_roundtrip DEFAULT_CONFIG c9game 1 0 1 0 true true
    (Or.inr (Or.inl rfl))
  exact ⟨h.1, h.2.1.trans rfl, h.2.2.trans rfl⟩

/-! C3 — at most one brick is resolved per tick. -/

/-- C3: the collision scan either leaves the brick list unchanged, or there
is a single brick — the first active one whose collision test fires, every
earlier brick being destroyed or missed — that is replaced by its hit
version (durability decremented by 1), all other bricks unchanged; and while
the ball is not lost and bricks remain, the tick's brick list is exactly the
scan's result. -/
theorem c3_at_most_one_brick_resolved (cfg : GameConfig) :
    (∀ (ball : Ball) (bricks : List Brick) (combo : Nat) (score : Int),
      (scanBricks cfg ball bricks combo score).bricks = bricks ∨
      ∃ pre brick post,
        bricks = pre ++ brick :: post ∧
        (scanBricks cfg ball bricks combo score).bricks =
          pre ++ (Brick.hit brick).1 :: post ∧
        brick.destroyed = false ∧
        (Ball.checkBrickCollision cfg brick.x brick.y brick.width brick.height ball).2 =
          true ∧
        (Brick.hit brick).1.durability = brick.durability - 1 ∧
        (∀ b2 ∈ pre, b2.destroyed = true ∨
          (Ball.checkBrickCollision cfg b2.x b2.y b2.width b2.height ball).2 = false)) ∧
    (∀ (g : Game) (s bsin bcos : ℚ),
      (Ball.update cfg s bsin bcos (Paddle.update cfg g.paddle) g.ball).2 = false →
      BrickManager.getRemainingCount (Game.tickScan cfg s bsin bcos g).bricks ≠ 0 →
      (Game.update cfg s bsin bcos g).bricks = (Game.tickScan cfg s bsin bcos g).bricks) := by
  constructor
  · intro ball bricks combo score
    induction bricks with
    | nil => left; rfl
    | cons brick rest ih =>
      by_cases hd : brick.destroyed = true
      · rcases ih with h | ⟨pre, bk, post, h1, h2, h3, h4, h5, h6⟩
        · left
          simp only [scanBricks, hd, if_true]
          rw [h]
        · right
          refine ⟨brick :: pre, bk, post, by rw [h1]; rfl, ?_, h3, h4, h5, ?_⟩
          · simp only [scanBricks, hd, if_true]
            rw [h2]
            rfl
          · intro b2 hb2
            rcases List.mem_cons.mp hb2 with hb2 | hb2
            · exact Or.inl (hb2 ▸ hd)
            · exact h6 b2 hb2
      · have hd2 : brick.destroyed = false := by
          simpa using hd
        by_cases hc :
            (Ball.checkBrickCollision cfg brick.x brick.y brick.width brick.height ball).2 =
              true
        · right
          refine ⟨[], brick, rest, rfl, ?_, hd2, hc, Brick.hit_durability brick, by simp⟩
          simp only [scanBricks, hd2, Bool.false_eq_true, if_false, hc, if_true]
          by_cases hb : (Brick.hit brick).2 = true <;> simp [hb]
        · have hc2 :
              (Ball.checkBrickCollision cfg brick.x brick.y brick.width brick.height ball).2 =
                false := by
            simpa using hc
          rcases ih with h | ⟨pre, bk, post, h1, h2, h3, h4, h5, h6⟩
          · left
            simp only [scanBricks, hd2, Bool.false_eq_true, if_false, hc2]
            rw [h]
          · right
            refine ⟨brick :: pre, bk, post, by rw [h1]; rfl, ?_, h3, h4, h5, ?_⟩
            · simp only [scanBricks, hd2, Bool.false_eq_true, if_false, hc2]
              rw [h2]
              rfl
            · intro b2 hb2
              rcases List.mem_cons.mp hb2 with hb2 | hb2
              · exact Or.inr (hb2 ▸ hc2)
              · exact h6 b2 hb2
  · intro g s bsin bcos hlost hrem
    unfold Game.update
    simp only [hlost, Bool.false_eq_true, if_false]
    rw [if_neg (by simpa [Game.tickScan] using hrem)]
    rfl

/-- C3 witness: on a concrete playing state whose only brick misses the
ball, the scan leaves the brick list unchanged and the tick uses exactly
the scan's brick list. -/
theorem c3_witness :
    ((scanBricks smallCfg c3game.ball c3game.bricks 0 0).bricks = c3game.bricks ∨
      ∃ pre brick post,
        c3game.bricks = pre ++ brick :: post ∧
        (scanBricks smallCfg c3game.ball c3game.bricks 0 0).bricks =
          pre ++ (Brick.hit brick).1 :: post ∧
        brick.destroyed = false ∧
        (Ball.checkBrickCollision smallCfg brick.x brick.y brick.width brick.height
          c3game.ball).2 = true ∧
        (Brick.hit brick).1.durability = brick.durability - 1 ∧
        (∀ b2 ∈ pre, b2.destroyed = true ∨
          (Ball.checkBrickCollision smallCfg b2.x b2.y b2.width b2.height
            c3game.ball).2 = false)) ∧
    (Game.update smallCfg 5 0 1 c3game).bricks =
      (Game.tickScan smallCfg 5 0 1 c3game).bricks := by
  constructor
  · exact (c3_at_most_one_brick_resolved smallCfg).1 c3game.ball c3game.bricks 0 0
  · refine (c3_at_most_one_brick_resolved smallCfg).2 c3game 5 0 1 ?_ ?_
    · norm_num +decide [Ball.update, Ball.checkPaddleCollision, Paddle.update, c3game,
        Game.init, Paddle.init, smallCfg]
    · norm_num +decide [Game.tickScan, Ball.update, Ball.checkPaddleCollision,
        Paddle.update, c3game, Game.init, Paddle.init, smallCfg, scanBricks,
        Ball.checkBrickCollision, Brick.init, BRICK_CONFIGS,
        BrickManager.getRemainingCount, BrickManager.getActiveBricks]

/-! C4 — combo increment precedes the multiplier, scoring adds
`floor(brickScore × multiplier)`. -/

/-- C4: when the scan's first active colliding brick is destroyed by the
hit, the combo is incremented first and the score grows by
`floor(brickScore × multiplier)` with the multiplier computed from the new
combo; the multiplier tiers are `≥10 → ×2`, `≥5 → ×1.5`, else `×1`. -/
theorem c4_combo_scoring (cfg : GameConfig) (ball : Ball) (pre post : List Brick)
    (brick : Brick) (combo : Nat) (score : Int)
    (hpre : ∀ b2 ∈ pre, b2.destroyed = true ∨
      (Ball.checkBrickCollision cfg b2.x b2.y b2.width b2.height ball).2 = false)
    (hd : brick.destroyed = false)
    (hc : (Ball.checkBrickCollision cfg brick.x brick.y brick.width brick.height ball).2 =
      true)
    (hdur : brick.durability - 1 ≤ 0) :
    (scanBricks cfg ball (pre ++ brick :: post) combo score).combo = combo + 1 ∧
    (scanBricks cfg ball (pre ++ brick :: post) combo score).score =
      score + Int.floor ((brick.config.score : ℚ) * comboMultiplier (combo + 1)) ∧
    comboMultiplier 4 = 1 ∧ comboMultiplier 5 = 1.5 ∧ comboMultiplier 10 = 2 := by
  have hmult : comboMultiplier 4 = 1 ∧ comboMultiplier 5 = 1.5 ∧ comboMultiplier 10 = 2 := by
    norm_num [comboMultiplier]
  have hhit : (Brick.hit brick).2 = true := (Brick.hit_destroys_iff brick).mpr hdur
  induction pre with
  | nil =>
    refine ⟨?_, ?_, hmult⟩ <;>
      simp only [List.nil_append, scanBricks, hd, Bool.false_eq_true, if_false, hc, if_true,
        hhit]
  | cons p pre ih =>
    have hstep := ih (fun b2 hb2 => hpre b2 (List.mem_cons_of_mem p hb2))
    rcases hpre p (List.mem_cons_self p pre) with hpd | hpc
    · simp only [List.cons_append, scanBricks, hpd, if_true]
      exact ⟨hstep.1, hstep.2.1, hmult⟩
    · by_cases hpd : p.destroyed = true
      · simp only [List.cons_append, scanBricks, hpd, if_true]
        exact ⟨hstep.1, hstep.2.1, hmult⟩
      · have hpd2 : p.destroyed = false := by simpa using hpd
        simp only [List.cons_append, scanBricks, hpd2, Bool.false_eq_true, if_false, hpc]
        exact ⟨hstep.1, hstep.2.1, hmult⟩

/-- C4 witness: destroying a normal brick at combo 0 yields combo 1 and adds
`floor(10 × ×1) = 10`. -/
theorem c4_witness :
    (scanBricks DEFAULT_CONFIG c4ball [c4brick] 0 0).combo = 0 + 1 ∧
    (scanBricks DEFAULT_CONFIG c4ball [c4brick] 0 0).score =
      0 + Int.floor ((c4brick.config.score : ℚ) * comboMultiplier (0 + 1)) := by
  have h := c4_combo_scoring DEFAULT_CONFIG c4ball [] [] c4brick 0 0
    (by simp) rfl
    (by norm_num +decide [Ball.checkBrickCollision, c4brick, c4ball, Brick.init,
      BRICK_CONFIGS, DEFAULT_CONFIG])
    (by decide)
  exact ⟨h.1, h.2.1⟩

/-! C6 — stage-clear handling whenever the remaining brick count reaches 0. -/

/-- C6: when the tick's ball is not lost and the scan leaves no active
brick, then: on the last stage (`stage ≥ 3`) the state becomes `clear` with
score, lives, stage, bricks and combo exactly as the scan left them;
otherwise the controller advances — stage incremented, bricks regenerated
for the new stage, paddle and ball reset, combo 0, state untouched (it stays
`playing`), and score and lives unchanged by the advance. -/
theorem c6_stage_clear (cfg : GameConfig) (s bsin bcos : ℚ) (g : Game)
    (hnl : (Ball.update cfg s bsin bcos (Paddle.update cfg g.paddle) g.ball).2 = false)
    (hrem : BrickManager.getRemainingCount (Game.tickScan cfg s bsin bcos g).bricks = 0) :
    (3 ≤ g.stage →
      (Game.update cfg s bsin bcos g).state = GameState.clear ∧
      (Game.update cfg s bsin bcos g).score = (Game.tickScan cfg s bsin bcos g).score ∧
      (Game.update cfg s bsin bcos g).lives = g.lives ∧
      (Game.update cfg s bsin bcos g).stage = g.stage ∧
      (Game.update cfg s bsin bcos g).bricks = (Game.tickScan cfg s bsin bcos g).bricks ∧
      (Game.update cfg s bsin bcos g).combo = (Game.tickScan cfg s bsin bcos g).combo) ∧
    (g.stage < 3 →
      (Game.update cfg s bsin bcos g).state = g.state ∧
      (Game.update cfg s bsin bcos g).stage = g.stage + 1 ∧
      (Game.update cfg s bsin bcos g).bricks =
        BrickManager.createBricks cfg (g.stage + 1) ∧
      (Game.update cfg s bsin bcos g).paddle = Paddle.reset cfg (Paddle.update cfg g.paddle) ∧
      (Game.update cfg s bsin bcos g).ball =
        Ball.reset cfg (Paddle.reset cfg (Paddle.update cfg g.paddle)) ∧
      (Game.update cfg s bsin bcos g).combo = 0 ∧
      (Game.update cfg s bsin bcos g).score = (Game.tickScan cfg s bsin bcos g).score ∧
      (Game.update cfg s bsin bcos g).lives = g.lives) := by
  have hrem2 : BrickManager.getRemainingCount
      (scanBricks cfg (Ball.update cfg s bsin bcos (Paddle.update cfg g.paddle) g.ball).1
        g.bricks g.combo g.score).bricks = 0 := by
    simpa [Game.tickScan] using hrem
  constructor
  · intro h3
    unfold Game.update
    simp only [hnl, Bool.false_eq_true, if_false]
    split
    · unfold Game.handleStageClear
      split
      · exact ⟨rfl, rfl, rfl, rfl, rfl, rfl⟩
      · exact absurd h3 (by assumption)
    · exact absurd hrem2 (by assumption)
  · intro h3
    unfold Game.update
    simp only [hnl, Bool.false_eq_true, if_false]
    split
    · unfold Game.handleStageClear
      split
      · rename_i hge
        exact absurd (show (3:Nat) ≤ g.stage from hge) (by omega)
      · unfold Game.initStage
        exact ⟨rfl, rfl, rfl, rfl, rfl, rfl, rfl, rfl⟩
    · exact absurd hrem2 (by assumption)

/-- C6 witness: a playing state on stage 3 with an empty brick field and a
flying ball transitions to `clear` on the next tick, keeping score and
lives. -/
theorem c6_witness :
    (Game.update smallCfg 5 0 1 c6game).state = GameState.clear ∧
    (Game.update smallCfg 5 0 1 c6game).score = (Game.tickScan smallCfg 5 0 1 c6game).score ∧
    (Game.update smallCfg 5 0 1 c6game).lives = c6game.lives := by
  have h := c6_stage_clear smallCfg 5 0 1 c6game
    (by norm_num +decide [Ball.update, Ball.checkPaddleCollision, Paddle.update, c6game,
      Game.init, Paddle.init, smallCfg])
    (by norm_num +decide [Game.tickScan, Ball.update, Ball.checkPaddleCollision,
      Paddle.update, c6game, Game.init, Paddle.init, smallCfg, scanBricks,
      BrickManager.getRemainingCount, BrickManager.getActiveBricks])
  exact ⟨(h.1 (by norm_num [c6game, Game.init])).1, (h.1 (by norm_num [c6game, Game.init])).2.1,
    (h.1 (by norm_num [c6game, Game.init])).2.2.1⟩

/-! C7 — the launched speed magnitude stays within
`[initialSpeed, maxSpeed]` and is never zero. -/

/-- Position integration and wall reflection preserve the squared speed. -/
theorem speedSq_integrateWalls (cfg : GameConfig) (b : Ball) :
    speedSq (Ball.integrateWalls cfg b) = speedSq b := by
  simp only [Ball.integrateWalls]
  split_ifs <;> simp [speedSq, sq_abs, neg_sq]

/-- The brick-collision response (an axis sign flip plus a positional push)
preserves the squared speed. -/
theorem speedSq_checkBrickCollision (cfg : GameConfig) (brickX brickY brickW brickH : ℚ)
    (b : Ball) :
    speedSq (Ball.checkBrickCollision cfg brickX brickY brickW brickH b).1 = speedSq b := by
  simp only [Ball.checkBrickCollision]
  split_ifs <;> simp [speedSq, neg_sq]

/-- The paddle bounce keeps the squared speed in the configured range: the
new speed is `min(speed · 1.02, maxSpeed)` redistributed over a unit
sine/cosine pair. -/
theorem speedSq_checkPaddleCollision (cfg : GameConfig) (s bsin bcos : ℚ) (p : Paddle)
    (b : Ball) (hinit : 0 < cfg.ballInitialSpeed)
    (hmax : cfg.ballInitialSpeed ≤ cfg.ballMaxSpeed) (hs0 : 0 ≤ s)
    (hs : s ^ 2 = speedSq b) (htrig : bsin ^ 2 + bcos ^ 2 = 1)
    (hlo : cfg.ballInitialSpeed ^ 2 ≤ speedSq b)
    (hhi : speedSq b ≤ cfg.ballMaxSpeed ^ 2) :
    cfg.ballInitialSpeed ^ 2 ≤ speedSq (Ball.checkPaddleCollision cfg s bsin bcos p b) ∧
    speedSq (Ball.checkPaddleCollision cfg s bsin bcos p b) ≤ cfg.ballMaxSpeed ^ 2 := by
  simp only [Ball.checkPaddleCollision]
  split_ifs with h
  · have hsle : cfg.ballInitialSpeed ≤ s := by nlinarith
    have hm0 : 0 ≤ min (s * 1.02) cfg.ballMaxSpeed :=
      le_min (by nlinarith) (le_trans hinit.le hmax)
    have hmlo : cfg.ballInitialSpeed ≤ min (s * 1.02) cfg.ballMaxSpeed :=
      le_min (by nlinarith) hmax
    have hmhi : min (s * 1.02) cfg.ballMaxSpeed ≤ cfg.ballMaxSpeed := min_le_right _ _
    have hval : speedSq
        { b with
          dx := min (s * 1.02) cfg.ballMaxSpeed * bsin
          dy := -(min (s * 1.02) cfg.ballMaxSpeed * bcos)
          y := p.y - cfg.ballRadius } = (min (s * 1.02) cfg.ballMaxSpeed) ^ 2 := by
      simp only [speedSq]
      have : (min (s * 1.02) cfg.ballMaxSpeed * bsin) ^ 2 +
          (-(min (s * 1.02) cfg.ballMaxSpeed * bcos)) ^ 2 =
          (min (s * 1.02) cfg.ballMaxSpeed) ^ 2 * (bsin ^ 2 + bcos ^ 2) := by ring
      rw [this, htrig, mul_one]
    rw [hval]
    constructor <;> nlinarith
  · exact ⟨hlo, hhi⟩

/-- C7: with `0 < initialSpeed ≤ maxSpeed`, launching puts the squared speed
in range, every launched-ball `update` (wall reflection and paddle bounce
included) keeps it there, and the brick-collision response preserves it
exactly; in particular the speed is never zero while launched. -/
theorem c7_speed_invariant (cfg : GameConfig) (hinit : 0 < cfg.ballInitialSpeed)
    (hmax : cfg.ballInitialSpeed ≤ cfg.ballMaxSpeed) :
    (∀ (b : Ball) (si co : ℚ) (mirror : Bool), si ^ 2 + co ^ 2 = 1 →
      b.launched = false → SpeedInRange cfg (Ball.launch cfg si co mirror b)) ∧
    (∀ (b : Ball) (p : Paddle) (s bsin bcos : ℚ), b.launched = true → 0 ≤ s →
      s ^ 2 = speedSq b → bsin ^ 2 + bcos ^ 2 = 1 → SpeedInRange cfg b →
      SpeedInRange cfg (Ball.update cfg s bsin bcos p b).1) ∧
    (∀ (b : Ball) (brickX brickY brickW brickH : ℚ), SpeedInRange cfg b →
      SpeedInRange cfg (Ball.checkBrickCollision cfg brickX brickY brickW brickH b).1) := by
  have hne : ∀ q : ℚ, cfg.ballInitialSpeed ^ 2 ≤ q → q ≠ 0 := by
    intro q hq
    exact ((pow_pos hinit 2).trans_le hq).ne'
  refine ⟨?_, ?_, ?_⟩
  · intro b si co mirror htrig hl
    have hmir : (if mirror then (1:ℚ) else -1) ^ 2 = 1 := by
      cases mirror <;> norm_num
    have hval : speedSq (Ball.launch cfg si co mirror b) = cfg.ballInitialSpeed ^ 2 := by
      simp only [Ball.launch, hl, Bool.false_eq_true, if_false, speedSq]
      linear_combination (cfg.ballInitialSpeed ^ 2 * co ^ 2) * hmir +
        cfg.ballInitialSpeed ^ 2 * htrig
    refine ⟨by rw [hval], by rw [hval]; nlinarith, by rw [hval]; exact (pow_pos hinit 2).ne'⟩
  · intro b p s bsin bcos hl hs0 hs htrig hr
    obtain ⟨hlo, hhi, hne0⟩ := hr
    rw [Ball.update_launched cfg s bsin bcos p b hl]
    have hb3 := speedSq_integrateWalls cfg b
    by_cases hlost : (Ball.integrateWalls cfg b).y - cfg.ballRadius > cfg.canvasHeight
    · rw [if_pos hlost]
      exact ⟨by rw [speedSq, ← speedSq, hb3]; exact hlo,
        by rw [speedSq, ← speedSq, hb3]; exact hhi,
        by rw [speedSq, ← speedSq, hb3]; exact hne0⟩
    · rw [if_neg hlost]
      have h2 := speedSq_checkPaddleCollision cfg s bsin bcos p (Ball.integrateWalls cfg b)
        hinit hmax hs0 (by rw [hb3]; exact hs) htrig (by rw [hb3]; exact hlo)
        (by rw [hb3]; exact hhi)
      exact ⟨h2.1, h2.2, hne _ h2.1⟩
  · intro b brickX brickY brickW brickH hr
    obtain ⟨hlo, hhi, hne0⟩ := hr
    have h := speedSq_checkBrickCollision cfg brickX brickY brickW brickH b
    exact ⟨by rw [h]; exact hlo, by rw [h]; exact hhi, by rw [h]; exact hne0⟩

/-- C7 witness: a launched default ball at speed 5 satisfies the invariant,
and one `update` keeps it. -/
theorem c7_witness :
    c7ball.launched = true ∧ SpeedInRange DEFAULT_CONFIG c7ball ∧
    SpeedInRange DEFAULT_CONFIG
      (Ball.update DEFAULT_CONFIG 5 0 1 (Paddle.init DEFAULT_CONFIG) c7ball).1 := by
  have hr : SpeedInRange DEFAULT_CONFIG c7ball := by
    refine ⟨?_, ?_, ?_⟩ <;> norm_num [speedSq, c7ball, DEFAULT_CONFIG]
  refine ⟨rfl, hr, ?_⟩
  exact (c7_speed_invariant DEFAULT_CONFIG (by norm_num [DEFAULT_CONFIG])
      (by norm_num [DEFAULT_CONFIG])).2.1 c7ball (Paddle.init DEFAULT_CONFIG) 5 0 1 rfl
    (by norm_num) (by norm_num [speedSq, c7ball]) (by norm_num) hr

/-! C5 — which operations reset the combo counter. -/

/-- The collision scan leaves the combo unchanged or increments it by
exactly 1. -/
theorem scanBricks_combo (cfg : GameConfig) (ball : Ball) (bricks : List Brick) :
    ∀ (combo : Nat) (score : Int),
      (scanBricks cfg ball bricks combo score).combo = combo ∨
      (scanBricks cfg ball bricks combo score).combo = combo + 1 := by
  induction bricks with
  | nil => intro combo score; left; rfl
  | cons brick rest ih =>
    intro combo score
    by_cases hd : brick.destroyed = true
    · simp only [scanBricks, hd, if_true]
      exact ih combo score
    · have hd2 : brick.destroyed = false := by simpa using hd
      by_cases hc :
          (Ball.checkBrickCollision cfg brick.x brick.y brick.width brick.height ball).2 =
            true
      · simp only [scanBricks, hd2, Bool.false_eq_true, if_false, hc, if_true]
        by_cases hb : (Brick.hit brick).2 = true
        · simp only [hb, if_true]
          right
          trivial
        · have hb2 : (Brick.hit brick).2 = false := by simpa using hb
          simp only [hb2, Bool.false_eq_true, if_false]
          left
          trivial
      · have hc2 :
            (Ball.checkBrickCollision cfg brick.x brick.y brick.width brick.height ball).2 =
              false := by simpa using hc
        simp only [scanBricks, hd2, Bool.false_eq_true, if_false, hc2]
        exact ih combo score

/-- Two consecutive steps that each keep or zero the combo keep or zero it
overall. -/
theorem combo_step_trans {g1 g2 g3 : Game}
    (h12 : g2.combo = g1.combo ∨ g2.combo = 0)
    (h23 : g3.combo = g2.combo ∨ g3.combo = 0) :
    g3.combo = g1.combo ∨ g3.combo = 0 := by
  rcases h12 with h12 | h12 <;> rcases h23 with h23 | h23 <;> simp [h12, h23]

/-- The movement block never touches the combo. -/
theorem keyDownArrows_combo (code : KeyCode) (g : Game) :
    (Game.keyDownArrows code g).combo = g.combo ∨
    (Game.keyDownArrows code g).combo = 0 := by
  unfold Game.keyDownArrows
  split_ifs <;> simp

/-- The space block keeps the combo or zeroes it (through `start`). -/
theorem keyDownSpace_combo (cfg : GameConfig) (code : KeyCode) (si co : ℚ)
    (mirror : Bool) (g : Game) :
    (Game.keyDownSpace cfg code si co mirror g).combo = g.combo ∨
    (Game.keyDownSpace cfg code si co mirror g).combo = 0 := by
  unfold Game.keyDownSpace Game.start Game.initStage
  split_ifs <;> simp

/-- The pause-toggle block never touches the combo. -/
theorem keyDownPauseToggle_combo (cfg : GameConfig) (code : KeyCode) (g : Game) :
    (Game.keyDownPauseToggle cfg code g).combo = g.combo ∨
    (Game.keyDownPauseToggle cfg code g).combo = 0 := by
  unfold Game.keyDownPauseToggle Game.pause Game.resume
  split_ifs <;> simp

/-- The q block keeps the combo or zeroes it (through `quit`). -/
theorem keyDownQuitQ_combo (cfg : GameConfig) (code : KeyCode) (g : Game) :
    (Game.keyDownQuitQ cfg code g).combo = g.combo ∨
    (Game.keyDownQuitQ cfg code g).combo = 0 := by
  unfold Game.keyDownQuitQ Game.quit
  split_ifs <;> simp

/-- The escape-quit block keeps the combo or zeroes it (through `quit`). -/
theorem keyDownQuitEscape_combo (cfg : GameConfig) (code : KeyCode) (g : Game) :
    (Game.keyDownQuitEscape cfg code g).combo = g.combo ∨
    (Game.keyDownQuitEscape cfg code g).combo = 0 := by
  unfold Game.keyDownQuitEscape Game.quit
  split_ifs <;> simp

/-- The restart block keeps the combo or zeroes it (through `restart`). -/
theorem keyDownRestart_combo (cfg : GameConfig) (code : KeyCode) (g : Game) :
    (Game.keyDownRestart cfg code g).combo = g.combo ∨
    (Game.keyDownRestart cfg code g).combo = 0 := by
  unfold Game.keyDownRestart Game.restart
  split_ifs <;> simp

/-- The six sequential non-scoreboard blocks of `handleKeyDown` keep or
zero the combo. -/
theorem keyDownChain_combo (cfg : GameConfig) (code : KeyCode) (si co : ℚ)
    (mirror : Bool) (gk : Game) :
    (Game.keyDownRestart cfg code (Game.keyDownQuitEscape cfg code
      (Game.keyDownQuitQ cfg code (Game.keyDownPauseToggle cfg code
        (Game.keyDownSpace cfg code si co mirror
          (Game.keyDownArrows code gk)))))).combo = gk.combo ∨
    (Game.keyDownRestart cfg code (Game.keyDownQuitEscape cfg code
      (Game.keyDownQuitQ cfg code (Game.keyDownPauseToggle cfg code
        (Game.keyDownSpace cfg code si co mirror
          (Game.keyDownArrows code gk)))))).combo = 0 := by
  have a1 := keyDownArrows_combo code gk
  have a2 := keyDownSpace_combo cfg code si co mirror (Game.keyDownArrows code gk)
  have a3 := keyDownPauseToggle_combo cfg code
    (Game.keyDownSpace cfg code si co mirror (Game.keyDownArrows code gk))
  have a4 := keyDownQuitQ_combo cfg code
    (Game.keyDownPauseToggle cfg code
      (Game.keyDownSpace cfg code si co mirror (Game.keyDownArrows code gk)))
  have a5 := keyDownQuitEscape_combo cfg code
    (Game.keyDownQuitQ cfg code (Game.keyDownPauseToggle cfg code
      (Game.keyDownSpace cfg code si co mirror (Game.keyDownArrows code gk))))
  have a6 := keyDownRestart_combo cfg code
    (Game.keyDownQuitEscape cfg code (Game.keyDownQuitQ cfg code
      (Game.keyDownPauseToggle cfg code (Game.keyDownSpace cfg code si co mirror
        (Game.keyDownArrows code gk)))))
  exact combo_step_trans (combo_step_trans (combo_step_trans (combo_step_trans
    (combo_step_trans a1 a2) a3) a4) a5) a6

/-- Every branch of the key-down handler leaves the combo unchanged or
resets it to 0 (the latter only through `start`, `quit` or `restart`). -/
theorem handleKeyDown_combo (cfg : GameConfig) (code : KeyCode) (si co : ℚ)
    (mirror : Bool) (g : Game) :
    (Game.handleKeyDown cfg code si co mirror g).combo = g.combo ∨
    (Game.handleKeyDown cfg code si co mirror g).combo = 0 := by
  simp only [Game.handleKeyDown]
  split_ifs with h1 h2 h3 h4
  · left; rfl
  · left; rfl
  · left; rfl
  · left; rfl
  · have h := keyDownChain_combo cfg code si co mirror
      { g with keys := fun k => if k = code then true else g.keys k }
    simpa using h

/-- Every branch of the click handler leaves the combo unchanged or resets
it to 0 (the latter only through `start`). -/
theorem handleClick_combo (cfg : GameConfig) (si co : ℚ) (mirror : Bool) (g : Game) :
    (Game.handleClick cfg si co mirror g).combo = g.combo ∨
    (Game.handleClick cfg si co mirror g).combo = 0 := by
  simp only [Game.handleClick, Game.start, Game.initStage]
  split_ifs <;> simp

/-- C5 counterexample: a reachable paused state with combo 1 (start the
small game, launch straight up, one tick destroying one of the two bricks,
pause); `quit` — which is neither ball-loss handling nor stage
initialisation — sets the combo to 0. -/
theorem c5_counterexample :
    Reachable smallCfg c5g4 ∧
    c5g4.state = GameState.paused ∧
    c5g4.combo = 1 ∧
    (Game.quit smallCfg c5g4).state = GameState.idle ∧
    (Game.quit smallCfg c5g4).combo = 0 := by
  have h1 : Reachable smallCfg c5g1 := Reachable.start Reachable.init
  have h2 : Reachable smallCfg c5g2 :=
    Reachable.keyDown KeyCode.space 1 0 true h1 (by norm_num)
  have hstate : c5g2.state = GameState.playing := by
    norm_num +decide [c5g2, c5g1, smallCfg, Game.handleKeyDown, Game.start, Game.init,
      Game.initStage, BrickManager.createBricks, Paddle.reset, Paddle.init, Ball.reset,
      Paddle.getCenterX, List.range_succ, BrickManager.getBrickType, Brick.init,
      BRICK_CONFIGS, Ball.launch, Game.keyDownArrows, Game.keyDownSpace,
      Game.keyDownPauseToggle, Game.keyDownQuitQ, Game.keyDownQuitEscape, Game.keyDownRestart]
  have hspeed : (30:ℚ) ^ 2 = c5g2.ball.dx ^ 2 + c5g2.ball.dy ^ 2 := by
    norm_num +decide [c5g2, c5g1, smallCfg, Game.handleKeyDown, Game.start, Game.init,
      Game.initStage, BrickManager.createBricks, Paddle.reset, Paddle.init, Ball.reset,
      Paddle.getCenterX, List.range_succ, BrickManager.getBrickType, Brick.init,
      BRICK_CONFIGS, Ball.launch, Game.keyDownArrows, Game.keyDownSpace,
      Game.keyDownPauseToggle, Game.keyDownQuitQ, Game.keyDownQuitEscape, Game.keyDownRestart]
  have h3 : Reachable smallCfg c5g3 :=
    Reachable.tick 30 0 1 h2 hstate (by norm_num) hspeed (by norm_num)
  have h4 : Reachable smallCfg c5g4 := Reachable.pause h3
  refine ⟨h4, ?_, ?_, ?_, ?_⟩ <;>
    norm_num +decide [Game.quit, c5g4, Game.pause, c5g3, c5g2, c5g1, smallCfg, Game.update,
      Game.handleKeyDown, Game.start, Game.init, Game.initStage, BrickManager.createBricks,
      Paddle.reset, Paddle.init, Ball.reset, Paddle.getCenterX, List.range_succ,
      BrickManager.getBrickType, Brick.init, BRICK_CONFIGS, Ball.launch, Paddle.update,
      Ball.update, Ball.checkPaddleCollision, scanBricks, Ball.checkBrickCollision,
      Brick.hit, comboMultiplier, BrickManager.getRemainingCount,
      BrickManager.getActiveBricks, Game.handleStageClear, Game.handleBallLost,
      Game.keyDownArrows, Game.keyDownSpace, Game.keyDownPauseToggle, Game.keyDownQuitQ,
      Game.keyDownQuitEscape, Game.keyDownRestart]

/-- C5 (amended): the combo counter is set to 0 exactly by ball-loss
handling, by stage initialisation (through `start` and through the stage
advance inside a tick), and by the full resets `quit` (from
paused/gameover/clear) and `restart`; every other controller operation
leaves it unchanged, except that a tick may increment it by exactly 1 when
a brick is destroyed. -/
theorem c5_combo_reset_characterization (cfg : GameConfig) (g : Game)
    (s bsin bcos si co mouseX : ℚ) (mirror : Bool) (code : KeyCode) (stage2 : Nat) :
    (Game.pause cfg g).combo = g.combo ∧
    (Game.resume cfg g).combo = g.combo ∧
    (Game.handleKeyUp code g).combo = g.combo ∧
    (Game.handleMouseMove cfg mouseX g).combo = g.combo ∧
    (Game.initStage cfg stage2 g).combo = 0 ∧
    (Game.restart cfg g).combo = 0 ∧
    ((g.state = GameState.paused ∨ g.state = GameState.gameover ∨
        g.state = GameState.clear) → (Game.quit cfg g).combo = 0) ∧
    (¬(g.state = GameState.paused ∨ g.state = GameState.gameover ∨
        g.state = GameState.clear) → (Game.quit cfg g).combo = g.combo) ∧
    (g.state = GameState.idle → (Game.start cfg g).combo = 0) ∧
    (g.state ≠ GameState.idle → (Game.start cfg g).combo = g.combo) ∧
    ((Ball.update cfg s bsin bcos (Paddle.update cfg g.paddle) g.ball).2 = true →
      (Game.update cfg s bsin bcos g).combo = 0) ∧
    ((Ball.update cfg s bsin bcos (Paddle.update cfg g.paddle) g.ball).2 = false →
      BrickManager.getRemainingCount (Game.tickScan cfg s bsin bcos g).bricks ≠ 0 →
      ((Game.update cfg s bsin bcos g).combo = g.combo ∨
        (Game.update cfg s bsin bcos g).combo = g.combo + 1)) ∧
    ((Ball.update cfg s bsin bcos (Paddle.update cfg g.paddle) g.ball).2 = false →
      BrickManager.getRemainingCount (Game.tickScan cfg s bsin bcos g).bricks = 0 →
      g.stage < 3 → (Game.update cfg s bsin bcos g).combo = 0) ∧
    ((Ball.update cfg s bsin bcos (Paddle.update cfg g.paddle) g.ball).2 = false →
      BrickManager.getRemainingCount (Game.tickScan cfg s bsin bcos g).bricks = 0 →
      3 ≤ g.stage →
      ((Game.update cfg s bsin bcos g).combo = g.combo ∨
        (Game.update cfg s bsin bcos g).combo = g.combo + 1)) ∧
    ((Game.handleKeyDown cfg code si co mirror g).combo = g.combo ∨
      (Game.handleKeyDown cfg code si co mirror g).combo = 0) ∧
    ((Game.handleClick cfg si co mirror g).combo = g.combo ∨
      (Game.handleClick cfg si co mirror g).combo = 0) := by
  refine ⟨?_, ?_, ?_, ?_, rfl, rfl, ?_, ?_, ?_, ?_, ?_, ?_, ?_, ?_,
    handleKeyDown_combo cfg code si co mirror g, handleClick_combo cfg si co mirror g⟩
  · unfold Game.pause
    split <;> rfl
  · unfold Game.resume
    split <;> rfl
  · simp only [Game.handleKeyUp]
    split_ifs <;> rfl
  · unfold Game.handleMouseMove
    split <;> rfl
  · intro h
    unfold Game.quit
    rw [if_pos h]
  · intro h
    unfold Game.quit
    rw [if_neg h]
  · intro h
    unfold Game.start
    rw [if_pos h]
    rfl
  · intro h
    unfold Game.start
    rw [if_neg h]
  · intro h
    unfold Game.update
    simp only [h, if_true]
    simp only [Game.handleBallLost]
    split <;> rfl
  · intro h hne
    unfold Game.update
    simp only [h, Bool.false_eq_true, if_false]
    rw [if_neg (by simpa [Game.tickScan] using hne)]
    exact scanBricks_combo cfg _ g.bricks g.combo g.score
  · intro h he h3
    unfold Game.update
    simp only [h, Bool.false_eq_true, if_false]
    rw [if_pos (by simpa [Game.tickScan] using he)]
    unfold Game.handleStageClear
    split
    · rename_i hge
      exact absurd (show (3:Nat) ≤ g.stage from hge) (by omega)
    · rfl
  · intro h he h3
    unfold Game.update
    simp only [h, Bool.false_eq_true, if_false]
    rw [if_pos (by simpa [Game.tickScan] using he)]
    unfold Game.handleStageClear
    split
    · exact scanBricks_combo cfg _ g.bricks g.combo g.score
    · rename_i hlt
      exact absurd (show (3:Nat) ≤ g.stage from h3) hlt

/-- C5 witness: on the initial default game, `pause` keeps the combo while
`restart` and `start` (stage initialisation) reset it to 0. -/
theorem c5_witness :
    (Game.pause DEFAULT_CONFIG (Game.init DEFAULT_CONFIG)).combo =
      (Game.init DEFAULT_CONFIG).combo ∧
    (Game.restart DEFAULT_CONFIG (Game.init DEFAULT_CONFIG)).combo = 0 ∧
    (Game.start DEFAULT_CONFIG (Game.init DEFAULT_CONFIG)).combo = 0 := by
  have h := c5_combo_reset_characterization DEFAULT_CONFIG (Game.init DEFAULT_CONFIG)
    0 0 1 1 0 0 true KeyCode.other 2
  exact ⟨h.1, h.2.2.2.2.2.1, h.2.2.2.2.2.2.2.2.1 rfl⟩

end BrickBreaker

